import Mathlib

/-!
# Verification of the `yt_frame_compiler` pipeline

A shallow embedding, in Lean 4, of the Python package `yt_frame_compiler`
(modules `models.py`, `cache.py`, `youtube.py`, `frames.py`, `video.py`,
`cli.py`), together with theorems settling the behavioural claims about it.

Modelling conventions used throughout:

* `datetime` values are modelled as integers (seconds since the Unix epoch);
  `datetime.max` is modelled by a distinguished top element (`Dt.maxDt`),
  which is strictly greater than every ordinary datetime, exactly as
  `datetime.max` compares strictly greater than every datetime that the
  program can parse.
* Python floats are modelled by exact rationals (`ℚ`).  Every numeric fact
  proved or refuted below is robust far above double-precision rounding
  (the margins involved are on the order of `0.05`).
* Fallible Python code is modelled in `Except`: `Except.error` is an
  uncaught Python exception (`PyErr`), `Except.ok` a normal return.
* Filesystem and network effects are passed in explicitly: the contents of
  the cache file, the outcome of the network fetch, the set of frame files
  on disk and the outcome of each worker task are parameters, and functions
  with filesystem effects return an explicit trace of operations.
-/

namespace YtFrameCompiler

/-- Python exceptions that the embedded code can raise uncaught. -/
inductive PyErr where
  | typeError
  | attributeError
deriving DecidableEq

/-- `models.VideoMetadata` (a frozen dataclass): normalized metadata for one
video.  `upload_date : Option Int` models `Optional[datetime]`,
`duration : Option Int` models `Optional[int]`. -/
structure VideoMetadata where
  video_id : String
  title : String
  url : String
  upload_date : Option Int
  duration : Option Int
  position : Int
deriving DecidableEq

/-- `models.FrameResult` (a dataclass): the outcome of extracting one frame. -/
structure FrameResult where
  metadata : VideoMetadata
  frame_path : String
  upload_date : Option Int
deriving DecidableEq

/-- The `__init__` generated by `@dataclass` for `FrameResult`.  Each argument
is `some`/`none` according to whether the keyword was supplied at the call
site.  None of the three fields of `FrameResult` has a default value in
`models.py`, so omitting any of them raises `TypeError`. -/
def FrameResult.init (metadata : Option VideoMetadata) (frame_path : Option String)
    (upload_date : Option (Option Int)) : Except PyErr FrameResult :=
  match metadata, frame_path, upload_date with
  | some m, some f, some u => .ok ⟨m, f, u⟩
  | _, _, _ => .error .typeError

/-! ## `cache.py`: the on-disk metadata cache

JSON payloads are modelled by `JVal`.  An ISO-8601 datetime string (the
output of `datetime.isoformat`) is modelled by the dedicated constructor
`JVal.jdate d` carrying the datetime it encodes; `JVal.jstr` covers every
other string, so `datetime.fromisoformat` succeeds exactly on `jdate`
values and raises `ValueError` on `jstr` values.  Floats never occur in the
payloads this program writes and are omitted. -/
inductive JVal where
  | null
  | jbool (b : Bool)
  | jint (n : Int)
  | jstr (s : String)
  | jdate (d : Int)
  | jarr (items : List JVal)
  | jobj (fields : List (String × JVal))

/-- Rendering of the ISO string carried by a `jdate`; its exact text is
irrelevant to every claim, so the decimal rendering of the datetime stands
in for it. -/
def dtRender (d : Int) : String := toString d

/-- Python truthiness of a JSON value. -/
def JVal.truthy : JVal → Bool
  | .null => false
  | .jbool b => b
  | .jint n => n != 0
  | .jstr s => s != ""
  | .jdate _ => true
  | .jarr items => !items.isEmpty
  | .jobj fields => !fields.isEmpty

/-- The string stored when a JSON value lands in a `str`-typed slot of
`VideoMetadata`.  The Python code stores the raw dynamic value; every
payload written by `serialize_videos` (the only producer the claims
exercise) holds genuine strings here, so non-string values are abstracted
by a canonical rendering. -/
def JVal.asStored : JVal → String
  | .jstr s => s
  | .jdate d => dtRender d
  | .jint n => toString n
  | .jbool b => if b then "True" else "False"
  | .null => "None"
  | .jarr _ => "<list>"
  | .jobj _ => "<dict>"

/-- Python `==` between a JSON value and an `int` (used by the
`formatVersion` check; `True == 1` holds in Python). -/
def pyEqInt (v : JVal) (n : Int) : Bool :=
  match v with
  | .jint m => m == n
  | .jbool b => (if b then (1 : Int) else 0) == n
  | _ => false

/-- Python `for item in v`: lists yield their items, strings their
characters, dicts their keys; `None`, numbers and booleans are not
iterable (`TypeError`). -/
def pyIter : JVal → Except PyErr (List JVal)
  | .jarr items => .ok items
  | .jstr s => .ok (s.toList.map (fun c => .jstr (String.singleton c)))
  | .jdate d => .ok ((dtRender d).toList.map (fun c => .jstr (String.singleton c)))
  | .jobj fields => .ok (fields.map (fun kv => .jstr kv.1))
  | _ => .error .typeError

/-- `datetime.fromisoformat` as called inside `deserialize_videos`: the
`except ValueError` around it maps unparsable strings to `None`, while a
non-string argument raises `TypeError`, which is NOT caught. -/
def fromisoformat : JVal → Except PyErr (Option Int)
  | .jdate d => .ok (some d)
  | .jstr _ => .ok none
  | _ => .error .typeError

/-- `cache.CACHE_VERSION`. -/
def CACHE_VERSION : Int := 1

/-- `cache._channel_key` composed with `cache._cache_root`: the channel's
storage directory.  The SHA-256 fingerprint is an external primitive,
abstracted as an injective key (its exact value is irrelevant to every
claim). -/
def channelCacheDir (channel_url : String) : String :=
  "CACHE_ROOT/" ++ channel_url

/-- `cache.serialize_videos` on one record. -/
def serializeVideo (v : VideoMetadata) : JVal :=
  .jobj [("video_id", .jstr v.video_id),
         ("title", .jstr v.title),
         ("url", .jstr v.url),
         ("upload_date", match v.upload_date with
                         | some d => .jdate d
                         | none => .null),
         ("duration", match v.duration with
                      | some n => .jint n
                      | none => .null),
         ("position", .jint v.position)]

/-- `cache.serialize_videos`: the full snapshot payload.
`generatedAt` is the `datetime.utcnow().isoformat()` wall-clock string,
passed in explicitly. -/
def serializeVideos (videos : List VideoMetadata) (generatedAt : String) : JVal :=
  .jobj [("version", .jint CACHE_VERSION),
         ("generated_at", .jstr generatedAt),
         ("videos", .jarr (videos.map serializeVideo))]

/-- One iteration of the loop in `cache.deserialize_videos`.  `item.get` on
a non-dict raises `AttributeError`; the `upload_date` parse runs before the
id/url check; records without a truthy id and url are skipped
(`continue`); `position` defaults to `len(items)` accumulated so far. -/
def deserializeItem (acc : List VideoMetadata) (item : JVal) :
    Except PyErr (List VideoMetadata) :=
  match item with
  | .jobj fields =>
    match (match fields.lookup "upload_date" with
           | some v => if v.truthy then fromisoformat v else .ok none
           | none => .ok none) with
    | .error e => .error e
    | .ok upload_date =>
      let videoId := fields.lookup "video_id"
      let url := fields.lookup "url"
      if (match videoId with | some v => v.truthy | none => false) &&
         (match url with | some v => v.truthy | none => false) then
        -- fields of `VideoMetadata`, in declaration order:
        -- video_id, title, url, upload_date, duration, position
        .ok (acc ++ [⟨(videoId.map JVal.asStored).getD "",
                      (match fields.lookup "title" with
                       | some v => v.asStored
                       | none => "Untitled"),
                      (url.map JVal.asStored).getD "",
                      upload_date,
                      (match fields.lookup "duration" with
                       | some (.jint n) => some n
                       | _ => none),
                      (match fields.lookup "position" with
                       | some (.jint n) => n
                       | _ => (acc.length : Int))⟩])
      else
        .ok acc
  | _ => .error .attributeError

/-- The `for item in data.get("videos", []): ...` loop of
`cache.deserialize_videos`. -/
def deserializeLoop (acc : List VideoMetadata) :
    List JVal → Except PyErr (List VideoMetadata)
  | [] => .ok acc
  | item :: rest =>
    match deserializeItem acc item with
    | .error e => .error e
    | .ok acc' => deserializeLoop acc' rest

/-- `cache.deserialize_videos`. -/
def deserializeVideos (data : JVal) : Except PyErr (List VideoMetadata) :=
  match data with
  | .jobj fields =>
    match pyIter ((fields.lookup "videos").getD (.jarr [])) with
    | .error e => .error e
    | .ok items => deserializeLoop [] items
  | _ => .error .attributeError

/-- `cache.load_cached_metadata`.  The state of the snapshot file is passed
in explicitly: `none` = the file does not exist; `some (.error ())` = the
file exists but `json.loads` raises `JSONDecodeError` or reading raises
`OSError` (both caught, yielding a miss); `some (.ok data)` = the parsed
JSON payload.  `data.get("version")` on a payload that is valid JSON but
not an object raises `AttributeError`, which nothing catches. -/
def loadCachedMetadata (file : Option (Except Unit JVal)) :
    Except PyErr (Option (List VideoMetadata)) :=
  match file with
  | none => .ok none
  | some (.error _) => .ok none
  | some (.ok data) =>
    match data with
    | .jobj fields =>
      if (match fields.lookup "version" with
          | some v => pyEqInt v CACHE_VERSION
          | none => false) then
        match deserializeVideos data with
        | .error e => .error e
        | .ok vids => .ok (some vids)
      else .ok none
    | _ => .error .attributeError

/-- A filesystem operation, for tracing write disciplines. -/
inductive FsOp where
  | mkdirP (path : String)
  | writeText (path : String) (content : JVal)
  | rename (src dst : String)

/-- Whether a filesystem operation is a rename. -/
def FsOp.isRename : FsOp → Bool
  | .rename _ _ => true
  | _ => false

/-- `cache.persist_metadata` as the exact sequence of filesystem operations
it performs: create the channel directory, then write the serialized
payload directly to `metadata.json` with `Path.write_text`. -/
def persistMetadata (channel_url : String) (videos : List VideoMetadata)
    (generatedAt : String) : List FsOp :=
  [ .mkdirP (channelCacheDir channel_url),
    .writeText (channelCacheDir channel_url ++ "/metadata.json")
      (serializeVideos videos generatedAt) ]

/-! ## `frames.py`: capture-timestamp computation -/

/-- `math.isclose a b` with the default tolerances `rel_tol = 1e-9`,
`abs_tol = 0.0`, computed over exact rationals. -/
def isclose (a b : ℚ) : Bool :=
  decide (|a - b| ≤ 1 / 1000000000 * max |a| |b|)

/-- `frames._calculate_timestamp(duration_seconds, percent)`:

```python
bounded = max(0.0, min(percent, 100.0))
if not duration_seconds or duration_seconds <= 0:
    return 0.0
if math.isclose(bounded, 100.0):
    return max(duration_seconds - 0.1, 0.0)
return duration_seconds * (bounded / 100.0)
```

(`not duration_seconds` is true for `None` and for `0`, both covered below.) -/
def calculateTimestamp (duration_seconds : Option Int) (percent : ℚ) : ℚ :=
  let bounded : ℚ := max 0 (min percent 100)
  match duration_seconds with
  | none => 0
  | some d =>
    if d ≤ 0 then 0
    else if isclose bounded 100 then max ((d : ℚ) - 1 / 10) 0
    else (d : ℚ) * (bounded / 100)

/-! ## `youtube.py`: channel fetching and filtering -/

/-- `datetime.max` adjoined to ordinary datetimes, for sort keys built with
`x or datetime.max`: every datetime the program can parse is strictly below
`datetime.max`. -/
inductive Dt where
  | fin (t : Int)
  | maxDt
deriving DecidableEq

/-- Strict comparison of datetimes-with-max (Python `<` on `datetime`). -/
def Dt.ltB : Dt → Dt → Bool
  | .fin a, .fin b => decide (a < b)
  | .fin _, .maxDt => true
  | .maxDt, _ => false

/-- `x or datetime.max` for an optional datetime (`None` is falsy, every
datetime truthy). -/
def orMax : Option Int → Dt
  | some t => .fin t
  | none => .maxDt

/-- Python `<=` on a 2-tuple `(datetime, int)`: lexicographic. -/
def pairLe (a b : Dt × Int) : Bool :=
  Dt.ltB a.1 b.1 || (a.1 == b.1 && decide (a.2 ≤ b.2))

/-- The comparison induced by the sort key of `fetch_channel_videos`
(youtube.py line 164): `(item.upload_date or datetime.max, item.position)`. -/
def metaSortLe (a b : VideoMetadata) : Bool :=
  pairLe (orMax a.upload_date, a.position) (orMax b.upload_date, b.position)

/-- The comparison induced by the sort key of the assembly step
(cli.py lines 383-388):
`(item.upload_date or item.metadata.upload_date or datetime.max,
item.metadata.position)`. -/
def cliSortLe (a b : FrameResult) : Bool :=
  pairLe (orMax (a.upload_date.or a.metadata.upload_date), a.metadata.position)
         (orMax (b.upload_date.or b.metadata.upload_date), b.metadata.position)

/-- Python `list.sort(key=...)` is the stable sort by the key; insertion
sort with a total `≤`-style relation is stable, so it models it exactly. -/
def pySortMeta (l : List VideoMetadata) : List VideoMetadata :=
  List.insertionSort (fun a b => metaSortLe a b = true) l

/-- Python `list.sort(key=...)` for the assembly step (stable sort by the
cli key). -/
def pySortCli (l : List FrameResult) : List FrameResult :=
  List.insertionSort (fun a b => cliSortLe a b = true) l

/-- One flat entry dict of the channel enumeration, restricted to the keys
the program reads.  `duration` holds the value after the `int(...)`
coercion of `_entry_to_metadata` (a failed coercion is `none`). -/
structure Entry where
  id : Option String
  display_id : Option String
  title : Option String
  url : Option String
  webpage_url : Option String
  duration : Option Int
  upload_date : Option String
  timestamp : Option Int
  release_timestamp : Option Int
  live_status : Option String
deriving DecidableEq

/-- Python `a or b` on optional strings (`None` and `""` are falsy). -/
def strOr (a b : Option String) : Option String :=
  match a with
  | some s => if s != "" then some s else b
  | none => b

/-- Python truthiness of an optional string. -/
def strTruthy : Option String → Bool
  | some s => s != ""
  | none => false

/-- `entry.get("title") or "Untitled"`. -/
def titleOf (t : Option String) : String :=
  match t with
  | some s => if s != "" then s else "Untitled"
  | none => "Untitled"

/-- Whether `needle` occurs as a contiguous sublist of the second list. -/
def listIsInfix (needle : List Char) : List Char → Bool
  | [] => needle.isEmpty
  | c :: rest => needle.isPrefixOf (c :: rest) || listIsInfix needle rest

/-- Python `needle in hay` on strings. -/
def strContainsSub (hay needle : String) : Bool :=
  listIsInfix needle.toList hay.toList

/-- Python `str.lower()`.  (ASCII lowercasing; Python's full Unicode
lowercasing can only differ on non-ASCII letters, which cannot affect a
search for the ASCII segment `"/shorts/"`.) -/
def strLower (s : String) : String := ⟨s.data.map Char.toLower⟩

/-- A raw upload-date value: yt-dlp's `upload_date` is a `YYYYMMDD` string,
`timestamp`/`release_timestamp` are numeric Unix timestamps. -/
inductive RawDate where
  | s (v : String)
  | n (v : Int)
deriving DecidableEq

/-- Tail of the raw-date chain: `... or entry.get("release_timestamp")`.
The last operand is returned verbatim, truthy or not. -/
def rawDateChainR (e : Entry) : Option RawDate :=
  match e.release_timestamp with
  | some n => some (.n n)
  | none => none

/-- Middle of the raw-date chain: `... or entry.get("timestamp") or ...`
(`0` is falsy and falls through). -/
def rawDateChainT (e : Entry) : Option RawDate :=
  match e.timestamp with
  | some n => if n != 0 then some (.n n) else rawDateChainR e
  | none => rawDateChainR e

/-- `entry.get("upload_date") or entry.get("timestamp") or
entry.get("release_timestamp")` with Python truthiness (`""` and `0` are
falsy and fall through). -/
def rawDateChain (e : Entry) : Option RawDate :=
  match e.upload_date with
  | some s => if s != "" then some (.s s) else rawDateChainT e
  | none => rawDateChainT e

/-- Gregorian leap year. -/
def isLeapYear (y : Int) : Bool := (y % 4 == 0 && y % 100 != 0) || y % 400 == 0

/-- Number of days in a month. -/
def daysInMonth (y m : Int) : Int :=
  if m == 2 then (if isLeapYear y then 29 else 28)
  else if m == 4 || m == 6 || m == 9 || m == 11 then 30 else 31

/-- Days since 1970-01-01 of a Gregorian civil date (the standard
era-based formula; every intermediate quantity is non-negative for the
supported years 1-9999). -/
def daysFromCivil (y m d : Int) : Int :=
  let y' := if m ≤ 2 then y - 1 else y
  let era := (if 0 ≤ y' then y' else y' - 399) / 400
  let yoe := y' - era * 400
  let mp := if 2 < m then m - 3 else m + 9
  let doy := (153 * mp + 2) / 5 + d - 1
  let doe := yoe * 365 + yoe / 4 - yoe / 100 + doy
  era * 146097 + doe - 719468

/-- `datetime.strptime(raw, "%Y%m%d")`, yielding the midnight timestamp of
the parsed day; malformed or out-of-range strings raise `ValueError`,
caught and mapped to `None`. -/
def strptimeYmd (s : String) : Option Int :=
  if s.length = 8 ∧ s.toList.all Char.isDigit = true then
    let y : Int := ((s.take 4).toNat?.getD 0 : Nat)
    let m : Int := (((s.drop 4).take 2).toNat?.getD 0 : Nat)
    let d : Int := ((s.drop 6).toNat?.getD 0 : Nat)
    if 1 ≤ y ∧ y ≤ 9999 ∧ 1 ≤ m ∧ m ≤ 12 ∧ 1 ≤ d ∧ d ≤ daysInMonth y m then
      some (daysFromCivil y m d * 86400)
    else none
  else none

/-- `datetime.utcfromtimestamp` on an integer: defined exactly on the
timestamps representable as a `datetime` (year 1 through 9999);
out-of-range values raise, caught and mapped to `None`. -/
def utcfromtimestamp (n : Int) : Option Int :=
  if -62135596800 ≤ n ∧ n ≤ 253402300799 then some n else none

/-- `youtube._parse_upload_date` (the identical helper also appears in
`frames.py`). -/
def parseUploadDate : Option RawDate → Option Int
  | none => none
  | some (.n v) => utcfromtimestamp v
  | some (.s v) => strptimeYmd v

/-- `youtube._entry_to_metadata`.  `if not url: return None` on an
optional string rejects exactly `None` and `""` — here the `none` match
arm and the emptiness test on the `some` arm. -/
def entryToMetadata (entry : Entry) (position : Int) : Option VideoMetadata :=
  match strOr entry.webpage_url entry.url with
  | none => none
  | some u =>
    if u = "" then none
    else if strContainsSub (strLower u) "/shorts/" then none
    else if (match entry.duration with
             | some d => decide (d < 60)
             | none => false) then none
    else
      match strOr entry.id entry.display_id with
      | none => none
      | some v =>
        if v = "" then none
        else
          some ⟨v, titleOf entry.title, u,
                parseUploadDate (rawDateChain entry), entry.duration, position⟩

/-- A node of the possibly nested enumeration returned by
`ydl.extract_info`: a dict carrying entry fields and an `entries` list
(absent or empty = a leaf dict, which `_iter_entries` yields itself).
Falsy children (`None` items inside an `entries` list) are skipped by
`_iter_entries` before it yields anything, so they are omitted from the
model. -/
inductive Info where
  | node (entry : Entry) (entries : List Info)

mutual

/-- `youtube._iter_entries`: depth-first flattening that preserves order;
a node with a truthy `entries` list contributes its children recursively,
any other node is yielded itself. -/
def iterEntries : Info → List Entry
  | .node e children =>
    match children with
    | [] => [e]
    | c :: cs => iterEntriesList (c :: cs)

/-- Traversal of a list of child nodes for `iterEntries`. -/
def iterEntriesList : List Info → List Entry
  | [] => []
  | i :: is => iterEntries i ++ iterEntriesList is

end

/-- The entry loop of `fetch_channel_videos` (youtube.py lines 151-161):
`enumerate` indexes the flattened stream BEFORE any filtering (a dropped
entry still consumes its index), live/upcoming broadcasts are skipped, and
`_entry_to_metadata` drops ineligible entries.  (`if not entry: continue`
is unreachable: `_iter_entries` yields only truthy dicts.) -/
def collectBacklog (entries : List Entry) : List VideoMetadata :=
  entries.enum.filterMap fun p =>
    if p.2.live_status == some "is_live" || p.2.live_status == some "is_upcoming" then
      none
    else entryToMetadata p.2 (p.1 : Int)

/-- `youtube.fetch_channel_videos`.  `loadResult` is what
`load_cached_metadata` returns for this channel (a crash-free load), and
`netOutcome` the overall outcome of the retry loop: `.error msg` = every
attempt raised `DownloadError` (retries exhausted), `.ok info` =
`extract_info` returned `info`, with `none` modelling a falsy result.  The
retry/back-off and cookie-downgrade mechanics (lines 117-144) only decide
WHICH attempt's outcome becomes final and are folded into `netOutcome`;
best-effort persistence (lines 166-169) does not affect the return value
and is elided. -/
def fetchChannelVideos (loadResult : Option (List VideoMetadata))
    (preferCache forceRefresh : Bool)
    (netOutcome : Except String (Option Info)) :
    Except String (List VideoMetadata) :=
  let cached : List VideoMetadata := (if preferCache then loadResult else none).getD []
  if !cached.isEmpty && !forceRefresh then .ok cached
  else
    match netOutcome with
    | .error msg =>
      if !cached.isEmpty then .ok cached else .error msg
    | .ok none =>
      if !cached.isEmpty then .ok cached
      else .error "Failed to fetch channel information."
    | .ok (some info) =>
      let backlog := pySortMeta (collectBacklog (iterEntries info))
      if !backlog.isEmpty then .ok backlog
      else if !cached.isEmpty then .ok cached
      else .error "No eligible videos found on the channel."

/-! ## `video.py`: slideshow assembly -/

/-- Round half to even on rationals (Python's `round`). -/
def roundHalfEven (q : ℚ) : Int :=
  let f := ⌊q⌋
  let r := q - (f : ℚ)
  if r < 1 / 2 then f
  else if 1 / 2 < r then f + 1
  else if f % 2 = 0 then f else f + 1

/-- Python `round(x, 4)`: round to four decimal places. -/
def round4 (q : ℚ) : ℚ := (roundHalfEven (q * 10000) : ℚ) / 10000

/-- An operation performed against the external cv2 video writer. -/
inductive CvOp where
  | openWriter (path : String) (fps : ℚ)
  | writeFrame (path : String)
deriving DecidableEq

/-- `video.compile_video`: validates the inputs, computes
`fps = max(1.0, round(1.0 / frame_duration_seconds, 4))`, and writes the
frames one by one in their given order.  `writerOk` models the external
cv2 writer opening and every `imread` succeeding; the result carries the
fps and the ordered trace of writer operations. -/
def compileVideo (writerOk : Bool) (frames : List FrameResult)
    (output_path : String) (frame_duration_seconds : ℚ) :
    Except String (ℚ × List CvOp) :=
  if frames.isEmpty then .error "No frames available for compilation."
  else if frame_duration_seconds ≤ 0 then
    .error "Frame duration must be greater than zero."
  else
    let fps := max 1 (round4 (1 / frame_duration_seconds))
    if writerOk = false then .error "Failed to open video writer."
    else .ok (fps, .openWriter output_path fps ::
                     frames.map (fun f => .writeFrame f.frame_path))

/-! ## `cli.py`: the end-to-end run -/

/-- The observables of a `cli.main` run that returned normally. -/
structure MainOutcome where
  exitCode : Int
  compositorInvoked : Bool
  preSchedulingFrames : List String
  scheduledIds : List String
  orderedResults : List FrameResult
deriving DecidableEq

/-- The resume scan (cli.py lines 286-294): for each fetched video whose
frame file `<frame-dir>/<video-id>.png` already exists, synthesize a result
via `FrameResult(metadata=video, frame_path=cached_frame)` — a call that
omits the required `upload_date` argument.  `framesOnDisk` is the set of
video ids whose frame file exists. -/
def resumeScanLoop (framesOnDisk : List String)
    (acc : List (String × FrameResult)) :
    List VideoMetadata → Except PyErr (List (String × FrameResult))
  | [] => .ok acc
  | v :: rest =>
    if framesOnDisk.contains v.video_id then
      match FrameResult.init (some v)
          (some ("frames/" ++ v.video_id ++ ".png")) none with
      | .error e => .error e
      | .ok r => resumeScanLoop framesOnDisk (acc ++ [(v.video_id, r)]) rest
    else resumeScanLoop framesOnDisk acc rest

/-- Lines 271-397 of `cli.main`: frame-directory preparation
(rmtree + mkdir unless resuming), the resume scan, bounded extraction of
the pending set, deterministic re-ordering and the compile step, given the
fetched (and limit-sliced) non-empty video list.  `framesOnDisk` is the
video ids whose frame file exists when this phase starts; `extract v` the
outcome of the `extract_first_frame` worker task for `v` (`.ok ud` = a
frame written at `frames/<id>.png` with resolved upload date `ud`,
`.error` = a classified, isolated per-item failure); `writerOk` models the
external compositor opening.  Task completion order is irrelevant: results
land in an id-keyed map and are re-read in `videos` order. -/
def processAndCompile (resume : Bool) (frameDuration : ℚ) (outputPath : String)
    (videos : List VideoMetadata) (framesOnDisk : List String)
    (extract : VideoMetadata → Except String (Option Int))
    (writerOk : Bool) : Except PyErr MainOutcome :=
  -- `frames` dir is wiped (rmtree + mkdir) unless resuming
  let framesDir := if resume then framesOnDisk else []
  match (if resume then resumeScanLoop framesDir [] videos else .ok []) with
  | .error e => .error e
  | .ok seed =>
    let pending := videos.filter (fun v => (seed.lookup v.video_id).isNone)
    let results := seed ++ pending.filterMap (fun v =>
      match extract v with
      | .ok ud =>
        some (v.video_id,
          (⟨v, "frames/" ++ v.video_id ++ ".png", ud⟩ : FrameResult))
      | .error _ => none)
    let processed := videos.filterMap (fun v => results.lookup v.video_id)
    -- the code sorts in place and then tests emptiness; same emptiness
    let sorted := pySortCli processed
    if processed.isEmpty then
      .ok ⟨2, false, framesDir, pending.map (fun v => v.video_id), []⟩
    else
      match compileVideo writerOk sorted outputPath frameDuration with
      | .error _ =>
        .ok ⟨1, true, framesDir, pending.map (fun v => v.video_id), sorted⟩
      | .ok _ =>
        .ok ⟨0, true, framesDir, pending.map (fun v => v.video_id), sorted⟩

/-- `cli.main` from argument validation to the exit code, as a function of
the externally determined outcomes (`fetchResult` is the outcome of
`fetch_channel_videos`).  Dependency checking, argument parsing, the tqdm
progress bar, the summary printing and the temp-dir bookkeeping have no
effect on the observables recorded here and are elided.  The `rmtree` of a
stale frame directory is modelled as succeeding (its exception swallowing
is irrelevant on an ideal filesystem). -/
def mainRun (position : ℚ) (limit : Option Int) (maxWorkers : Option Int)
    (resume : Bool) (frameDuration : ℚ) (outputPath : String)
    (fetchResult : Except String (List VideoMetadata))
    (framesOnDisk : List String)
    (extract : VideoMetadata → Except String (Option Int))
    (writerOk : Bool) : Except PyErr MainOutcome :=
  if !(decide (0 ≤ position) && decide (position ≤ 100)) then
    .ok ⟨1, false, framesOnDisk, [], []⟩
  else if (match limit with | some n => decide (n ≤ 0) | none => false) then
    .ok ⟨1, false, framesOnDisk, [], []⟩
  else if (match maxWorkers with | some n => decide (n ≤ 0) | none => false) then
    .ok ⟨1, false, framesOnDisk, [], []⟩
  else
    match fetchResult with
    | .error _ => .ok ⟨1, false, framesOnDisk, [], []⟩
    | .ok fetched =>
      let videos := match limit with
                    | some n => fetched.take n.toNat
                    | none => fetched
      if videos.isEmpty then .ok ⟨2, false, framesOnDisk, [], []⟩
      else processAndCompile resume frameDuration outputPath videos framesOnDisk
             extract writerOk

/-! ## Concrete instances used by counterexamples and witnesses

`Entry` fields, in order: id, display_id, title, url, webpage_url,
duration, upload_date, timestamp, release_timestamp, live_status. -/

/-- An entry dict with no usable fields (e.g. the top-level channel dict). -/
def blankEntry : Entry := ⟨none, none, none, none, none, none, none, none, none, none⟩

/-- A short-form entry: its url contains the `/shorts/` path segment. -/
def shortsEntry : Entry :=
  ⟨some "s1", none, some "A Short", none,
   some "https://www.youtube.com/shorts/abc", some 30, none, none, none, none⟩

/-- An eligible long-form entry. -/
def goodEntry : Entry :=
  ⟨some "g1", none, some "Good", none,
   some "https://www.youtube.com/watch?v=g1", some 120, none, none, none, none⟩

/-- A channel whose only entry is a short: zero eligible records. -/
def emptyChannelInfo : Info := .node blankEntry [.node shortsEntry []]

/-- A channel with a short (enumeration index 0) followed by one eligible
entry (enumeration index 1). -/
def mixedChannelInfo : Info := .node blankEntry [.node shortsEntry [], .node goodEntry []]

/-- Example result with upload timestamp `T3 = 300` at original position 2. -/
def exResT3 : FrameResult := ⟨⟨"a", "A", "u/a", none, none, 2⟩, "frames/a.png", some 300⟩

/-- Example result with an absent upload timestamp at original position 1. -/
def exResAbs : FrameResult := ⟨⟨"b", "B", "u/b", none, none, 1⟩, "frames/b.png", none⟩

/-- Example result with upload timestamp `T1 = 100` at original position 0. -/
def exResT1 : FrameResult := ⟨⟨"c", "C", "u/c", none, none, 0⟩, "frames/c.png", some 100⟩

/-- A concrete eligible video record. -/
def exVideo : VideoMetadata := ⟨"vid1", "T1", "https://v/1", some 100, some 120, 0⟩

/-- The entry-keeping predicate of the fetch loop, position-independent:
not a live/upcoming broadcast, and `_entry_to_metadata` keeps it. -/
def keepEntry (e : Entry) : Bool :=
  !(e.live_status == some "is_live" || e.live_status == some "is_upcoming") &&
  (entryToMetadata e 0).isSome

end YtFrameCompiler

namespace YtFrameCompiler

/-! ## Claim C2 -/

/-- Helper for evaluating `isclose` to `true` on concrete inputs. -/
theorem isclose_true {a b : ℚ} (h : |a - b| ≤ 1 / 1000000000 * max |a| |b|) :
    isclose a b = true := by
  simpa only [isclose, decide_eq_true_eq] using h

/-- Helper for evaluating `isclose` to `false` on concrete inputs. -/
theorem isclose_false {a b : ℚ} (h : 1 / 1000000000 * max |a| |b| < |a - b|) :
    isclose a b = false := by
  simp only [isclose, decide_eq_false_iff_not, not_le]
  exact h

/-- Helper: under `0 ≤ p ≤ 100` the clamp in `_calculate_timestamp` is the
identity. -/
theorem bounded_eq_of_mem {p : ℚ} (h0 : 0 ≤ p) (h100 : p ≤ 100) :
    max 0 (min p 100) = p := by
  rw [min_eq_left h100, max_eq_right h0]

/-- Helper: the value of `_calculate_timestamp` in the `isclose` region. -/
theorem calculateTimestamp_of_close {d : Int} {p : ℚ} (hd : ¬ d ≤ 0)
    (h0 : 0 ≤ p) (h100 : p ≤ 100) (hc : isclose p 100 = true) :
    calculateTimestamp (some d) p = max ((d : ℚ) - 1 / 10) 0 := by
  simp only [calculateTimestamp, bounded_eq_of_mem h0 h100, hd, if_false, hc, if_true]

/-- Helper: the value of `_calculate_timestamp` in the linear region. -/
theorem calculateTimestamp_of_far {d : Int} {p : ℚ} (hd : ¬ d ≤ 0)
    (h0 : 0 ≤ p) (h100 : p ≤ 100) (hc : isclose p 100 = false) :
    calculateTimestamp (some d) p = (d : ℚ) * (p / 100) := by
  simp only [calculateTimestamp, bounded_eq_of_mem h0 h100, hd, if_false, hc,
    Bool.false_eq_true]

/-- C2 (amended): for every integral duration `d > 0` and percents
`p ≤ p₂` in `[0, 100]`, the computed capture timestamp lies in `[0, d]` and
equals `d - 0.1` at `p = 100`; it is monotone non-decreasing in the percent
provided the two percents fall on the same side of the `math.isclose(·, 100)`
boundary (both in the linear region below it, or both mapped to `d - 0.1`).
Across that boundary monotonicity can fail (see the counterexample). -/
theorem calculateTimestamp_spec (d : Int) (p p₂ : ℚ)
    (hd : 0 < d) (hp0 : 0 ≤ p) (hp100 : p ≤ 100)
    (hle : p ≤ p₂) (hp₂100 : p₂ ≤ 100)
    (hsame : isclose p 100 = isclose p₂ 100) :
    (0 ≤ calculateTimestamp (some d) p ∧ calculateTimestamp (some d) p ≤ d) ∧
    calculateTimestamp (some d) 100 = (d : ℚ) - 1 / 10 ∧
    calculateTimestamp (some d) p ≤ calculateTimestamp (some d) p₂ := by
  have hdq : (1 : ℚ) ≤ (d : ℚ) := by exact_mod_cast hd
  have hd0 : (0 : ℚ) ≤ (d : ℚ) := le_trans zero_le_one hdq
  have hdne : ¬ d ≤ 0 := not_le.mpr hd
  have hp₂0 : 0 ≤ p₂ := le_trans hp0 hle
  have hbp : max 0 (min p 100) = p := bounded_eq_of_mem hp0 hp100
  have hbp₂ : max 0 (min p₂ 100) = p₂ := bounded_eq_of_mem hp₂0 hp₂100
  have hb100 : max 0 (min (100 : ℚ) 100) = 100 := by norm_num
  have hc100 : isclose (100 : ℚ) 100 = true := by
    simp only [isclose, decide_eq_true_eq]
    norm_num
  refine ⟨⟨?_, ?_⟩, ?_, ?_⟩
  · -- lower bound
    cases hc : isclose p 100 with
    | true =>
        rw [calculateTimestamp_of_close hdne hp0 hp100 hc]
        exact le_max_right _ _
    | false =>
        rw [calculateTimestamp_of_far hdne hp0 hp100 hc]
        exact mul_nonneg hd0 (by positivity)
  · -- upper bound
    cases hc : isclose p 100 with
    | true =>
        rw [calculateTimestamp_of_close hdne hp0 hp100 hc]
        exact max_le (by linarith) hd0
    | false =>
        rw [calculateTimestamp_of_far hdne hp0 hp100 hc]
        have hpd : p / 100 ≤ 1 := by linarith
        calc (d : ℚ) * (p / 100) ≤ (d : ℚ) * 1 :=
              mul_le_mul_of_nonneg_left hpd hd0
          _ = (d : ℚ) := mul_one _
  · -- value at p = 100
    rw [calculateTimestamp_of_close hdne (by norm_num) le_rfl hc100]
    exact max_eq_left (by linarith)
  · -- monotonicity within one region
    cases hc : isclose p 100 with
    | true =>
        have hc₂ : isclose p₂ 100 = true := by rw [← hsame, hc]
        rw [calculateTimestamp_of_close hdne hp0 hp100 hc,
          calculateTimestamp_of_close hdne hp₂0 hp₂100 hc₂]
    | false =>
        have hc₂ : isclose p₂ 100 = false := by rw [← hsame, hc]
        rw [calculateTimestamp_of_far hdne hp0 hp100 hc,
          calculateTimestamp_of_far hdne hp₂0 hp₂100 hc₂]
        have : p / 100 ≤ p₂ / 100 := by linarith
        exact mul_le_mul_of_nonneg_left this hd0

/-- Witness for `calculateTimestamp_spec` at `d = 5`, `p = 10`, `p₂ = 20`. -/
theorem calculateTimestamp_spec_witness :
    (0 ≤ calculateTimestamp (some 5) 10 ∧ calculateTimestamp (some 5) 10 ≤ 5) ∧
    calculateTimestamp (some 5) 100 = (5 : ℚ) - 1 / 10 ∧
    calculateTimestamp (some 5) 10 ≤ calculateTimestamp (some 5) 20 := by
  have h₁ : isclose (10 : ℚ) 100 = false := by
    refine isclose_false ?_
    rw [abs_of_nonpos (by norm_num : (10 : ℚ) - 100 ≤ 0),
      abs_of_nonneg (by norm_num : (0 : ℚ) ≤ 10),
      abs_of_nonneg (by norm_num : (0 : ℚ) ≤ 100),
      max_eq_right (by norm_num : (10 : ℚ) ≤ 100)]
    norm_num
  have h₂ : isclose (20 : ℚ) 100 = false := by
    refine isclose_false ?_
    rw [abs_of_nonpos (by norm_num : (20 : ℚ) - 100 ≤ 0),
      abs_of_nonneg (by norm_num : (0 : ℚ) ≤ 20),
      abs_of_nonneg (by norm_num : (0 : ℚ) ≤ 100),
      max_eq_right (by norm_num : (20 : ℚ) ≤ 100)]
    norm_num
  have h := calculateTimestamp_spec 5 10 20 (by norm_num) (by norm_num)
    (by norm_num) (by norm_num) (by norm_num) (by rw [h₁, h₂])
  exact_mod_cast h

/-- C2 counterexample: with `d = 100`, the percents `p₁ = 99.95 ≤ p₂ = 100`
give timestamps `99.95 > 99.9`, so the computed timestamp is NOT monotone
non-decreasing in the percent: the `isclose(p, 100)` boundary maps `p = 100`
down to `d - 0.1` while percents just below the boundary still map linearly. -/
theorem calculateTimestamp_not_monotone :
    (1999 / 20 : ℚ) ≤ 100 ∧
    calculateTimestamp (some 100) 100 < calculateTimestamp (some 100) (1999 / 20) := by
  constructor
  · norm_num
  · have h₁ : isclose (1999 / 20 : ℚ) 100 = false := by
      refine isclose_false ?_
      rw [abs_of_nonpos (by norm_num : (1999 / 20 : ℚ) - 100 ≤ 0),
        abs_of_nonneg (by norm_num : (0 : ℚ) ≤ 1999 / 20),
        abs_of_nonneg (by norm_num : (0 : ℚ) ≤ 100),
        max_eq_right (by norm_num : (1999 / 20 : ℚ) ≤ 100)]
      norm_num
    have h₂ : isclose (100 : ℚ) 100 = true := by
      simp only [isclose, decide_eq_true_eq]
      norm_num
    rw [calculateTimestamp_of_far (by norm_num) (by norm_num) (by norm_num) h₁,
      calculateTimestamp_of_close (by norm_num) (by norm_num) le_rfl h₂]
    norm_num

/-! ## Claim C3 -/

/-- C3: evaluating `load_cached_metadata` at the failing input.  A snapshot
file whose content is the valid JSON text `[]` is a malformed payload; the
claim says loading it yields a silent cache miss, but `data.get("version")`
on a list raises `AttributeError`, which nothing catches. -/
theorem loadCachedMetadata_crashes_on_list_payload :
    loadCachedMetadata (some (.ok (.jarr []))) = .error .attributeError := rfl

/-! ## Claim C8 -/

/-- Helper: one loop iteration of `deserialize_videos` applied to the
serialization of a record with truthy id and url appends exactly that
record. -/
theorem deserializeItem_serializeVideo (acc : List VideoMetadata) (v : VideoMetadata)
    (hid : v.video_id ≠ "") (hurl : v.url ≠ "") :
    deserializeItem acc (serializeVideo v) = .ok (acc ++ [v]) := by
  obtain ⟨vid, vtitle, vurl, ud, dur, pos⟩ := v
  simp only at hid hurl
  have hid' : (vid != "") = true := by simpa [bne_iff_ne] using hid
  have hurl' : (vurl != "") = true := by simpa [bne_iff_ne] using hurl
  cases ud <;> cases dur <;>
    simp [deserializeItem, serializeVideo, List.lookup, JVal.truthy, JVal.asStored,
      fromisoformat, hid', hurl']

/-- Helper: the deserialization loop over a list of serialized records with
truthy ids and urls reproduces the records, appended to the accumulator. -/
theorem deserializeLoop_serialize (videos : List VideoMetadata) (acc : List VideoMetadata)
    (h : ∀ v ∈ videos, v.video_id ≠ "" ∧ v.url ≠ "") :
    deserializeLoop acc (videos.map serializeVideo) = .ok (acc ++ videos) := by
  induction videos generalizing acc with
  | nil => simp [deserializeLoop]
  | cons v vs ih =>
    have hv := h v (List.mem_cons_self _ _)
    simp only [List.map_cons, deserializeLoop,
      deserializeItem_serializeVideo acc v hv.1 hv.2]
    rw [ih (acc ++ [v]) (fun w hw => h w (List.mem_cons_of_mem _ hw))]
    simp

/-- C8 (confirmed): serializing a list of video records through the cache
store format and deserializing it back reproduces the list exactly — same
length, same order, and identical `video_id`, `title`, `url`,
`upload_date`, `duration` and `position` on every record — whenever every
record has a non-empty id and a non-empty url. -/
theorem serialize_roundtrip (videos : List VideoMetadata) (generatedAt : String)
    (h : ∀ v ∈ videos, v.video_id ≠ "" ∧ v.url ≠ "") :
    deserializeVideos (serializeVideos videos generatedAt) = .ok videos := by
  have hloop := deserializeLoop_serialize videos [] h
  simpa [deserializeVideos, serializeVideos, List.lookup, pyIter] using hloop

/-- Witness for `serialize_roundtrip` at a concrete one-record list. -/
theorem serialize_roundtrip_witness :
    deserializeVideos (serializeVideos
        [⟨"id1", "Title", "https://v/1", some 5, some 61, 0⟩] "2024-01-01T00:00:00") =
      .ok [⟨"id1", "Title", "https://v/1", some 5, some 61, 0⟩] :=
  serialize_roundtrip [⟨"id1", "Title", "https://v/1", some 5, some 61, 0⟩]
    "2024-01-01T00:00:00"
    (by
      intro v hv
      rw [List.mem_singleton] at hv
      subst hv
      exact ⟨by decide, by decide⟩)

/-! ## Claim C9 -/

/-- C9 counterexample: at a concrete input, the trace of filesystem
operations performed by `persist_metadata` is `[mkdir, write-to-final-path]`
and contains no rename whatsoever — refuting the claim that the store
writes to a temporary location and atomically renames it over the prior
snapshot. -/
theorem persistMetadata_no_rename :
    persistMetadata "chanA" [] "2024-01-01T00:00:00" =
      [.mkdirP (channelCacheDir "chanA"),
       .writeText (channelCacheDir "chanA" ++ "/metadata.json")
         (serializeVideos [] "2024-01-01T00:00:00")] ∧
    (persistMetadata "chanA" [] "2024-01-01T00:00:00").any FsOp.isRename = false :=
  ⟨rfl, rfl⟩

/-- C9 (amended): for every channel url, record list and timestamp,
`persist_metadata` performs exactly two filesystem operations — create the
channel directory, then write the serialized payload DIRECTLY to the final
snapshot path `metadata.json` — with no temporary location and no rename,
so no atomic-swap discipline shields concurrent readers (readers are
instead shielded only by `load_cached_metadata` treating unparsable JSON as
a cache miss). -/
theorem persistMetadata_trace (channel_url : String) (videos : List VideoMetadata)
    (generatedAt : String) :
    persistMetadata channel_url videos generatedAt =
      [.mkdirP (channelCacheDir channel_url),
       .writeText (channelCacheDir channel_url ++ "/metadata.json")
         (serializeVideos videos generatedAt)] ∧
    (persistMetadata channel_url videos generatedAt).any FsOp.isRename = false :=
  ⟨rfl, rfl⟩

/-! ## Claim C1 -/

/-- C1: evaluating the pipeline at the failing input: a run with `--resume`
over a channel whose previous run left the frame artifact of its single
video on disk.  Instead of synthesizing a success for the cached frame and
performing zero new extraction tasks, the resume scan's
`FrameResult(metadata=video, frame_path=cached_frame)` call dies with
`TypeError`, because the dataclass field `upload_date` has no default and
is not supplied. -/
theorem mainRun_resume_crashes :
    mainRun 0 none none true (1 / 5) "out.mp4" (.ok [exVideo]) ["vid1"]
      (fun _ => .error "unused") true = .error .typeError := rfl

/-! ## Claim C4 -/

/-- Totality of the shared tuple comparison. -/
theorem pairLe_total (a b : Dt × Int) : pairLe a b = true ∨ pairLe b a = true := by
  obtain ⟨x, i⟩ := a
  obtain ⟨y, j⟩ := b
  cases x <;> cases y <;> simp [pairLe, Dt.ltB] <;> omega

/-- Transitivity of the shared tuple comparison. -/
theorem pairLe_trans {a b c : Dt × Int} (hab : pairLe a b = true)
    (hbc : pairLe b c = true) : pairLe a c = true := by
  obtain ⟨x, i⟩ := a
  obtain ⟨y, j⟩ := b
  obtain ⟨z, k⟩ := c
  cases x <;> cases y <;> cases z <;> simp_all [pairLe, Dt.ltB] <;> omega

/-- C4 (confirmed): the assembly stage's comparison is induced by the key
`(resolvedUploadTimestamp-or-datetime.max, ordinalPosition)` — exactly the
key the fetcher uses over metadata (first conjunct, where the constructed
record carries the result's resolved timestamp); the assembly output is
sorted under that relation and is a permutation of its input; and on
results with upload timestamps `[T3, absent, T1]` at positions `[2, 1, 0]`
the assembled order is `T1, T3`, then the absent-timestamp item. -/
theorem assembly_ordering_matches_fetch (r1 r2 : FrameResult) (rs : List FrameResult) :
    (cliSortLe r1 r2 =
      metaSortLe
        ⟨r1.metadata.video_id, r1.metadata.title, r1.metadata.url,
         r1.upload_date.or r1.metadata.upload_date, r1.metadata.duration,
         r1.metadata.position⟩
        ⟨r2.metadata.video_id, r2.metadata.title, r2.metadata.url,
         r2.upload_date.or r2.metadata.upload_date, r2.metadata.duration,
         r2.metadata.position⟩) ∧
    List.Sorted (fun a b => cliSortLe a b = true) (pySortCli rs) ∧
    (pySortCli rs).Perm rs ∧
    pySortCli [exResT3, exResAbs, exResT1] = [exResT1, exResT3, exResAbs] := by
  refine ⟨rfl, ?_, ?_, rfl⟩
  · haveI : IsTotal FrameResult (fun a b => cliSortLe a b = true) :=
      ⟨fun a b => pairLe_total _ _⟩
    haveI : IsTrans FrameResult (fun a b => cliSortLe a b = true) :=
      ⟨fun _ _ _ hab hbc => pairLe_trans hab hbc⟩
    exact List.sorted_insertionSort _ _
  · exact List.perm_insertionSort _ _

/-! ## Claim C7 -/

/-- C7 counterexample: at frame-hold duration `h = 0.3` the code computes
`fps = max(1.0, round(1/h, 4)) = 3.3333` — `round` to FOUR DECIMAL PLACES —
which differs from the claimed `max(1, round(1/h)) = 3` (round to the
nearest integer). -/
theorem compileVideo_rate_not_nearest_int :
    compileVideo true [exResT1] "out.mp4" (3 / 10) =
      .ok ((33333 / 10000 : ℚ),
        [.openWriter "out.mp4" (33333 / 10000), .writeFrame "frames/c.png"]) ∧
    ((33333 / 10000 : ℚ) ≠ ((max 1 (roundHalfEven (1 / (3 / 10 : ℚ))) : Int) : ℚ)) := by
  have hf : ⌊(100000 / 3 : ℚ)⌋ = 33333 := by
    rw [Int.floor_eq_iff]
    norm_num
  have hr4 : round4 (1 / (3 / 10 : ℚ)) = 33333 / 10000 := by
    have h1 : (1 / (3 / 10 : ℚ)) * 10000 = 100000 / 3 := by norm_num
    unfold round4 roundHalfEven
    rw [h1, hf]
    rw [if_pos (by norm_num : (100000 / 3 : ℚ) - ((33333 : Int) : ℚ) < 1 / 2)]
    norm_num
  have hmax : max 1 (round4 (1 / (3 / 10 : ℚ))) = (33333 / 10000 : ℚ) := by
    rw [hr4]
    exact max_eq_right (by norm_num)
  constructor
  · unfold compileVideo
    rw [if_neg (by norm_num : ¬ (3 / 10 : ℚ) ≤ 0)]
    show Except.ok (max 1 (round4 (1 / (3 / 10 : ℚ))),
        [CvOp.openWriter "out.mp4" (max 1 (round4 (1 / (3 / 10 : ℚ)))),
         CvOp.writeFrame "frames/c.png"]) = _
    rw [hmax]
  · have hfloor : ⌊(1 / (3 / 10 : ℚ))⌋ = 3 := by
      rw [Int.floor_eq_iff]
      norm_num
    have h3 : roundHalfEven (1 / (3 / 10 : ℚ)) = 3 := by
      unfold roundHalfEven
      rw [hfloor]
      rw [if_pos (by norm_num : (1 / (3 / 10 : ℚ)) - ((3 : Int) : ℚ) < 1 / 2)]
    rw [h3]
    norm_num

/-- C7 (amended): for every frame-hold duration `h > 0` and non-empty
result list, the assembly operation computes the effective output rate
`max(1.0, round(1/h, 4))` — `1/h` rounded to four decimal places (round
half to even), not to the nearest integer — and delegates the frames to
the compositor one by one in their given order. -/
theorem compileVideo_spec (v : FrameResult) (frames : List FrameResult)
    (out : String) (h : ℚ) (hh : 0 < h) :
    compileVideo true (v :: frames) out h =
      .ok (max 1 (round4 (1 / h)),
        .openWriter out (max 1 (round4 (1 / h))) ::
          (v :: frames).map (fun f => .writeFrame f.frame_path)) := by
  unfold compileVideo
  rw [if_neg (by simp), if_neg (not_le.mpr hh)]
  exact rfl

/-- Witness for `compileVideo_spec` at `h = 0.2` and a single frame. -/
theorem compileVideo_spec_witness :
    compileVideo true [exResT1] "out.mp4" (1 / 5) =
      .ok (max 1 (round4 (1 / (1 / 5 : ℚ))),
        .openWriter "out.mp4" (max 1 (round4 (1 / (1 / 5 : ℚ)))) ::
          [exResT1].map (fun f => .writeFrame f.frame_path)) :=
  compileVideo_spec exResT1 [] "out.mp4" (1 / 5) (by norm_num)

/-! ## Claim C5 -/

/-- Helper: one trip of the deserialization loop of `cli.main` when every
validation passes and the fetch returned a non-empty list: `mainRun`
reduces to the processing phase. -/
theorem mainRun_eq_process (position frameDuration : ℚ) (resume : Bool)
    (outputPath : String) (v : VideoMetadata) (vs : List VideoMetadata)
    (framesOnDisk : List String)
    (extract : VideoMetadata → Except String (Option Int)) (writerOk : Bool)
    (hpos : 0 ≤ position ∧ position ≤ 100) :
    mainRun position none none resume frameDuration outputPath (.ok (v :: vs))
        framesOnDisk extract writerOk =
      processAndCompile resume frameDuration outputPath (v :: vs) framesOnDisk
        extract writerOk := by
  unfold mainRun
  have h1 : (!(decide (0 ≤ position) && decide (position ≤ 100))) = false := by
    simp [hpos.1, hpos.2]
  rw [h1]
  exact rfl

/-- Helper: the processing phase of a non-resume run in which every
extraction task fails: the run exits with code 2, the compositor is never
invoked, the frame directory was wiped, and every video was scheduled. -/
theorem processAndCompile_all_fail (frameDuration : ℚ) (outputPath : String)
    (videos : List VideoMetadata) (framesOnDisk : List String)
    (extract : VideoMetadata → Except String (Option Int)) (writerOk : Bool)
    (hfail : ∀ v ∈ videos, ∃ m, extract v = .error m) :
    processAndCompile false frameDuration outputPath videos framesOnDisk
        extract writerOk =
      .ok ⟨2, false, [], videos.map (fun v => v.video_id), []⟩ := by
  have hpend : videos.filter
      (fun v => (List.lookup v.video_id ([] : List (String × FrameResult))).isNone)
        = videos :=
    List.filter_true videos
  have hext : videos.filterMap (fun v =>
      match extract v with
      | Except.ok ud =>
        some (v.video_id, (⟨v, "frames/" ++ v.video_id ++ ".png", ud⟩ : FrameResult))
      | Except.error _ => none) = [] := by
    rw [List.filterMap_eq_nil_iff]
    intro v hv
    obtain ⟨m, hm⟩ := hfail v hv
    rw [hm]
  have hproc : videos.filterMap (fun v =>
      List.lookup v.video_id ([] : List (String × FrameResult))) = [] := by
    rw [List.filterMap_eq_nil_iff]
    intro v hv
    rfl
  simp only [processAndCompile, Bool.false_eq_true, if_false]
  rw [hpend, hext]
  simp only [List.nil_append]
  rw [hproc]
  rfl

/-- C5 counterexample: a channel enumeration whose only entry is a short
yields zero eligible records; with no cached snapshot, the fetch stage does
NOT return an empty list — it raises `ChannelFetchError` — and the program
exits with code 1 (the compositor is never invoked), not with code 2 as
claimed.  (The `if not videos: return 2` branch of `cli.main` is
unreachable: `fetch_channel_videos` never returns an empty list.) -/
theorem fetch_zero_eligible_exits_one :
    fetchChannelVideos none true false (.ok (some emptyChannelInfo)) =
      .error "No eligible videos found on the channel." ∧
    mainRun 0 none none false (1 / 5) "out.mp4"
      (fetchChannelVideos none true false (.ok (some emptyChannelInfo)))
      [] (fun _ => .error "x") true = .ok ⟨1, false, [], [], []⟩ ∧
    (1 : Int) ≠ 2 := ⟨rfl, rfl, by decide⟩

/-- C5 (amended): when the fetch stage finds zero eligible records and no
usable cached snapshot exists, it raises `ChannelFetchError`; the program
then exits with code 1 — not 2 — and the compositor is never invoked.
When zero frames were extracted after processing, the program exits with
code 2 and the compositor is never invoked. -/
theorem exit_codes_spec (position frameDuration : ℚ)
    (outputPath msg : String) (info : Info)
    (v : VideoMetadata) (vs : List VideoMetadata)
    (framesOnDisk : List String)
    (extract : VideoMetadata → Except String (Option Int)) (writerOk : Bool)
    (hpos : 0 ≤ position ∧ position ≤ 100)
    (hb : collectBacklog (iterEntries info) = [])
    (hfail : ∀ w ∈ v :: vs, ∃ m, extract w = .error m) :
    fetchChannelVideos none true false (.ok (some info)) =
      .error "No eligible videos found on the channel." ∧
    mainRun position none none false frameDuration outputPath (.error msg)
        framesOnDisk extract writerOk = .ok ⟨1, false, framesOnDisk, [], []⟩ ∧
    mainRun position none none false frameDuration outputPath (.ok (v :: vs))
        framesOnDisk extract writerOk =
      .ok ⟨2, false, [], (v :: vs).map (fun w => w.video_id), []⟩ := by
  refine ⟨?_, ?_, ?_⟩
  · simp only [fetchChannelVideos, hb]
    rfl
  · unfold mainRun
    have h1 : (!(decide (0 ≤ position) && decide (position ≤ 100))) = false := by
      simp [hpos.1, hpos.2]
    rw [h1]
    exact rfl
  · rw [mainRun_eq_process position frameDuration false outputPath v vs
      framesOnDisk extract writerOk hpos]
    exact processAndCompile_all_fail frameDuration outputPath (v :: vs)
      framesOnDisk extract writerOk hfail

/-- Witness for `exit_codes_spec` at concrete inputs. -/
theorem exit_codes_spec_witness :
    fetchChannelVideos none true false (.ok (some emptyChannelInfo)) =
      .error "No eligible videos found on the channel." ∧
    mainRun 0 none none false (1 / 5) "out.mp4" (.error "boom")
        ["old"] (fun _ => .error "x") true = .ok ⟨1, false, ["old"], [], []⟩ ∧
    mainRun 0 none none false (1 / 5) "out.mp4" (.ok [exVideo])
        ["old"] (fun _ => .error "x") true =
      .ok ⟨2, false, [], [exVideo].map (fun w => w.video_id), []⟩ :=
  exit_codes_spec 0 (1 / 5) "out.mp4" "boom" emptyChannelInfo exVideo []
    ["old"] (fun _ => .error "x") true
    ⟨by norm_num, by norm_num⟩ rfl
    (by
      intro w _
      exact ⟨"x", rfl⟩)

/-! ## Claim C10 -/

/-- Helper: the processing phase of a non-resume run never crashes, leaves
an empty frame directory at scheduling time, and schedules every video. -/
theorem processAndCompile_noresume (frameDuration : ℚ) (outputPath : String)
    (videos : List VideoMetadata) (framesOnDisk : List String)
    (extract : VideoMetadata → Except String (Option Int)) (writerOk : Bool) :
    ∃ out : MainOutcome,
      processAndCompile false frameDuration outputPath videos framesOnDisk
          extract writerOk = .ok out ∧
      out.preSchedulingFrames = [] ∧
      out.scheduledIds = videos.map (fun v => v.video_id) := by
  have hpend : videos.filter
      (fun v => (List.lookup v.video_id ([] : List (String × FrameResult))).isNone)
        = videos :=
    List.filter_true videos
  simp only [processAndCompile, Bool.false_eq_true, if_false]
  rw [hpend]
  by_cases hp : (videos.filterMap (fun v =>
      List.lookup v.video_id
        (([] : List (String × FrameResult)) ++ videos.filterMap (fun v =>
          match extract v with
          | Except.ok ud =>
            some (v.video_id,
              (⟨v, "frames/" ++ v.video_id ++ ".png", ud⟩ : FrameResult))
          | Except.error _ => none)))).isEmpty = true
  · rw [if_pos hp]
    exact ⟨_, rfl, rfl, rfl⟩
  · rw [if_neg hp]
    cases hcv : compileVideo writerOk (pySortCli (videos.filterMap (fun v =>
        List.lookup v.video_id
          (([] : List (String × FrameResult)) ++ videos.filterMap (fun v =>
            match extract v with
            | Except.ok ud =>
              some (v.video_id,
                (⟨v, "frames/" ++ v.video_id ++ ".png", ud⟩ : FrameResult))
            | Except.error _ => none))))) outputPath frameDuration with
    | error e => exact ⟨_, rfl, rfl, rfl⟩
    | ok r => exact ⟨_, rfl, rfl, rfl⟩

/-- C10 (confirmed): when the resume flag is not set, the channel's entire
existing frames directory is deleted (rmtree, then an empty recreate)
after the fetch and before any extraction work is scheduled: at scheduling
time the frame directory holds no prior artifact and every fetched video
is scheduled for extraction.  Prior per-video frame artifacts therefore
survive a re-run of the same channel only when resume is requested. -/
theorem mainRun_noresume_wipes_frames (position frameDuration : ℚ)
    (outputPath : String) (v : VideoMetadata) (vs : List VideoMetadata)
    (framesOnDisk : List String)
    (extract : VideoMetadata → Except String (Option Int)) (writerOk : Bool)
    (hpos : 0 ≤ position ∧ position ≤ 100) :
    ∃ out : MainOutcome,
      mainRun position none none false frameDuration outputPath (.ok (v :: vs))
          framesOnDisk extract writerOk = .ok out ∧
      out.preSchedulingFrames = [] ∧
      out.scheduledIds = (v :: vs).map (fun x => x.video_id) := by
  rw [mainRun_eq_process position frameDuration false outputPath v vs
    framesOnDisk extract writerOk hpos]
  exact processAndCompile_noresume frameDuration outputPath (v :: vs)
    framesOnDisk extract writerOk

/-- Witness for `mainRun_noresume_wipes_frames` at concrete inputs: a
channel directory holding a stale artifact for the fetched video. -/
theorem mainRun_noresume_wipes_frames_witness :
    ∃ out : MainOutcome,
      mainRun 50 none none false (1 / 5) "out.mp4" (.ok [exVideo])
          ["vid1"] (fun _ => .ok (some 100)) true = .ok out ∧
      out.preSchedulingFrames = [] ∧
      out.scheduledIds = [exVideo].map (fun x => x.video_id) :=
  mainRun_noresume_wipes_frames 50 (1 / 5) "out.mp4" exVideo [] ["vid1"]
    (fun _ => .ok (some 100)) true ⟨by norm_num, by norm_num⟩

/-! ## Claim C6 -/

/-- Helper: `_entry_to_metadata` at position `i` differs from the same
entry at position 0 only in the stored `position` field. -/
theorem entryToMetadata_map (e : Entry) (i : Int) :
    entryToMetadata e i = (entryToMetadata e 0).map
      (fun v => ⟨v.video_id, v.title, v.url, v.upload_date, v.duration, i⟩) := by
  simp only [entryToMetadata]
  cases hurl : strOr e.webpage_url e.url with
  | none => rfl
  | some u =>
    dsimp only
    by_cases hu : u = ""
    · rw [if_pos hu, if_pos hu]
      rfl
    · rw [if_neg hu, if_neg hu]
      cases hsh : strContainsSub (strLower u) "/shorts/" with
      | true => rfl
      | false =>
        cases hd : (match e.duration with
                    | some d => decide (d < 60)
                    | none => false) with
        | true => rfl
        | false =>
          cases hv : strOr e.id e.display_id with
          | none => rfl
          | some w =>
            dsimp only
            by_cases hw : w = ""
            · rw [if_pos hw, if_pos hw]
              rfl
            · rw [if_neg hw, if_neg hw]
              rfl

theorem entryToMetadata_position {e : Entry} {i : Int} {v : VideoMetadata}
    (h : entryToMetadata e i = some v) : v.position = i := by
  rw [entryToMetadata_map] at h
  cases h0 : entryToMetadata e 0 with
  | none =>
    rw [h0] at h
    exact absurd h (by simp)
  | some w =>
    rw [h0, Option.map_some'] at h
    rw [← Option.some.injEq _ _ |>.mp h]

theorem entryToMetadata_isSome (e : Entry) (i : Int) :
    (entryToMetadata e i).isSome = (entryToMetadata e 0).isSome := by
  rw [entryToMetadata_map, Option.isSome_map']

theorem collect_enumFrom (n : Nat) (l : List Entry) :
    ((l.enumFrom n).filterMap (fun p =>
        if p.2.live_status == some "is_live" || p.2.live_status == some "is_upcoming"
        then none
        else entryToMetadata p.2 (p.1 : Int))).map (fun v => v.position) =
      ((l.enumFrom n).filter (fun p => keepEntry p.2)).map (fun p => ((p.1 : Nat) : Int)) := by
  induction l generalizing n with
  | nil => rfl
  | cons e rest ih =>
    simp only [List.enumFrom, List.filterMap_cons, List.filter_cons]
    cases hlive : (e.live_status == some "is_live" || e.live_status == some "is_upcoming") with
    | true =>
      have hk : keepEntry e = false := by simp [keepEntry, hlive]
      simp only [hk, Bool.false_eq_true, if_false, if_true]
      exact ih (n + 1)
    | false =>
      cases hm : entryToMetadata e (n : Int) with
      | none =>
        have h0 : (entryToMetadata e 0).isSome = false := by
          rw [← entryToMetadata_isSome e (n : Int), hm]
          rfl
        have hk : keepEntry e = false := by simp [keepEntry, hlive, h0]
        simp only [hk, Bool.false_eq_true, if_false]
        exact ih (n + 1)
      | some v =>
        have hpos : v.position = (n : Int) := entryToMetadata_position hm
        have h0 : (entryToMetadata e 0).isSome = true := by
          rw [← entryToMetadata_isSome e (n : Int), hm]
          rfl
        have hk : keepEntry e = true := by simp [keepEntry, hlive, h0]
        simp only [hk, if_true, Bool.false_eq_true, if_false, List.map_cons]
        rw [hpos]
        exact congrArg (List.cons _) (ih (n + 1))

theorem positions_pairwise (q : Nat × Entry → Bool) (l : List Entry) :
    ((l.enum.filter q).map (fun p => ((p.1 : Nat) : Int))).Pairwise (· < ·) := by
  have h1 : ((l.enum.filter q).map Prod.fst).Pairwise (· < ·) := by
    have hs : List.Sublist ((l.enum.filter q).map Prod.fst) (l.enum.map Prod.fst) :=
      (List.filter_sublist _).map Prod.fst
    rw [List.enum_eq_enumFrom, List.enumFrom_map_fst] at hs
    exact (List.pairwise_lt_range' 0 l.length).sublist hs
  have h2 : (l.enum.filter q).map (fun p => ((p.1 : Nat) : Int)) =
      ((l.enum.filter q).map Prod.fst).map (fun m : Nat => (m : Int)) := by
    rw [List.map_map]
    rfl
  rw [h2, List.pairwise_map]
  exact h1.imp (fun h => Int.ofNat_lt.mpr h)

/-- C6 (amended): each surviving record's `ordinalPosition` equals its
zero-based index in the PRE-filter flattened enumeration — a dropped entry
still consumes its index — so the positions of the collected records are
strictly increasing but may have gaps; they are exactly `0, 1, 2, ...`
only when no enumerated entry is dropped. -/
theorem collectBacklog_positions (entries : List Entry) :
    (collectBacklog entries).map (fun v => v.position) =
      (entries.enum.filter (fun p => keepEntry p.2)).map (fun p => ((p.1 : Nat) : Int)) ∧
    ((collectBacklog entries).map (fun v => v.position)).Pairwise (· < ·) := by
  have hmain : (collectBacklog entries).map (fun v => v.position) =
      (entries.enum.filter (fun p => keepEntry p.2)).map (fun p => ((p.1 : Nat) : Int)) := by
    rw [collectBacklog, List.enum_eq_enumFrom]
    exact collect_enumFrom 0 entries
  refine ⟨hmain, ?_⟩
  rw [hmain]
  exact positions_pairwise _ entries

/-- C6 counterexample: a channel enumerating a short (index 0) followed by
one eligible entry (index 1).  The sole surviving record's post-filter
index is 0, but its `ordinalPosition` is 1: positions are assigned from
the PRE-filter enumeration, so they are not the gap-free `0, 1, 2, ...`
the claim states. -/
theorem fetch_positions_skip_filtered :
    (collectBacklog (iterEntries mixedChannelInfo)).map (fun v => v.position) = [1] ∧
    fetchChannelVideos none true false (.ok (some mixedChannelInfo)) =
      .ok [⟨"g1", "Good", "https://www.youtube.com/watch?v=g1", none, some 120, 1⟩] ∧
    [(1 : Int)] ≠ [0] := ⟨rfl, rfl, by decide⟩
